import Mathlib

/-!
Verification of the vctools whisper transcription adapter
(src/models/whisper/transcribe.py).

The Python module is embedded shallowly:
* real-valued arithmetic (durations, log-probabilities, confidences) is
  modelled over the real numbers, with Python's math.exp as Real.exp;
* Python's round (banker's rounding, round-half-to-even) is modelled by rne;
* the effectful environment of a run (which files exist, whether the
  decoder health check passes, what the engine returns) is captured in an
  Env record, and a run is a pure function from Env to the list of JSON
  lines printed plus a flag recording whether the transcription engine was
  invoked (model load attempted).
-/

namespace VCTools

/-- A transcription segment, as consumed by _confidence_from_segments:
keys "start", "end" (floats) and an optional "avg_logprob". -/
structure Segment where
  start : ℝ
  end_ : ℝ
  avg_logprob : Option ℝ

/-- One iteration of the accumulation loop of _confidence_from_segments
(transcribe.py lines 33-43): segments without "avg_logprob" are skipped,
otherwise num += clamp(exp(avg_lp)) * dur and den += dur with
dur = max(1e-3, end - start). -/
noncomputable def confStep (nd : ℝ × ℝ) (seg : Segment) : ℝ × ℝ :=
  match seg.avg_logprob with
  | none => nd
  | some avg_lp =>
    let dur := max (1/1000) (seg.end_ - seg.start)
    let conf := max 0 (min 1 (Real.exp avg_lp))
    (nd.1 + conf * dur, nd.2 + dur)

/-- The whole accumulation loop, started from num = 0.0, den = 0.0. -/
noncomputable def confFold (segments : List Segment) : ℝ × ℝ :=
  segments.foldl confStep (0, 0)

open Classical in
/-- _confidence_from_segments (transcribe.py lines 24-46): None on an empty
segment list or a zero denominator, otherwise the clamped weighted mean. -/
noncomputable def confidence_from_segments (segments : List Segment) : Option ℝ :=
  if segments.isEmpty then none
  else
    let nd := confFold segments
    if nd.2 = 0 then none
    else some (max 0 (min 1 (nd.1 / nd.2)))

/-- Lines 81-84 of transcribe.py: the run's confidence, with the neutral
0.5 fallback when _confidence_from_segments returned None. -/
noncomputable def overall_confidence (segments : List Segment) : ℝ :=
  (confidence_from_segments segments).getD 0.5

/-- The contribution of one segment to the numerator (0 if no logprob). -/
noncomputable def numTerm (s : Segment) : ℝ :=
  match s.avg_logprob with
  | none => 0
  | some avg_lp => max 0 (min 1 (Real.exp avg_lp)) * max (1/1000) (s.end_ - s.start)

/-- The contribution of one segment to the denominator (0 if no logprob). -/
noncomputable def denTerm (s : Segment) : ℝ :=
  match s.avg_logprob with
  | none => 0
  | some _ => max (1/1000) (s.end_ - s.start)

/-- Numerator of the weighted mean as a sum over the list. -/
noncomputable def numSum (segments : List Segment) : ℝ :=
  (segments.map numTerm).sum

/-- Denominator of the weighted mean as a sum over the list. -/
noncomputable def denSum (segments : List Segment) : ℝ :=
  (segments.map denTerm).sum

open Classical in
/-- Python's round on floats: round half to even (banker's rounding). -/
noncomputable def rne (x : ℝ) : ℤ :=
  if x - ⌊x⌋ < 1/2 then ⌊x⌋
  else if 1/2 < x - ⌊x⌋ then ⌊x⌋ + 1
  else if ⌊x⌋ % 2 = 0 then ⌊x⌋ else ⌊x⌋ + 1

/-- Python's round(x, 4): round to four decimal digits. -/
noncomputable def round4 (x : ℝ) : ℝ := (rne (x * 10000) : ℝ) / 10000

/-- The success payload of a run: transcribe.py lines 86-91. -/
structure TranscriptionResult where
  text : String
  model : String
  confidence : ℝ
  confidence_percent : ℤ

/-- Building the success payload (lines 86-91): the scalar confidence is
rounded to 4 decimals, the percentage is int(round(overall_conf * 100.0))
computed from the UNROUNDED overall confidence. -/
noncomputable def mkResult (text model : String) (overall_conf : ℝ) : TranscriptionResult :=
  ⟨text, model, round4 overall_conf, rne (overall_conf * 100)⟩

/-- get_gpu_load_simulated (lines 19-22), as a function of the sampled
CPU load: "tiny.en" when load > 60, else "small.en". -/
def get_gpu_load_simulated (load : ℚ) : String :=
  if load > 60 then "tiny.en" else "small.en"

/-- The model-selection policy of lines 67-74: a cached local artifact
wins; otherwise the load-threshold rule decides. -/
def select_model (localModelExists : Bool) (load : ℚ) : String :=
  if localModelExists then "base.en (local)" else get_gpu_load_simulated load

/-- One line printed to stdout. Every line the module prints is a
json.dumps object: a debug object, an error object, or the result object. -/
inductive OutLine where
  | debug : String → OutLine
  | error : String → OutLine
  | result : TranscriptionResult → OutLine

/-- True on the lines a machine consumer reads as the outcome of the run
(the error object or the result object); false on debug objects. -/
def isFinalLine : OutLine → Bool
  | OutLine.debug _ => false
  | OutLine.error _ => true
  | OutLine.result _ => true

/-- The effectful environment of one run: which checks pass and what the
external collaborators return. -/
structure Env where
  wavExists : Bool
  ffmpegHealthy : Bool
  ffmpegMsg : String
  torchOk : Bool
  torchMsg : String
  device : String
  localModelExists : Bool
  samplerOk : Bool
  samplerMsg : String
  load : ℚ
  engineOk : Bool
  engineMsg : String
  text : String
  segments : List Segment

/-- What a run produced: the printed lines, and whether the transcription
engine was invoked (whisper.load_model reached). -/
structure RunTrace where
  lines : List OutLine
  engineInvoked : Bool

/-- transcribe_audio (lines 48-94). Control flow mirrors the source: debug
line, missing-file early return, ffmpeg health check, then the try block
(torch import, device debug line, model selection with the local-artifact
shortcut, engine load + transcribe, result or Whisper-failed error).
The engineInvoked flag is true exactly when whisper.load_model was
attempted. psutil.cpu_percent is consulted only on the no-local-artifact
path; its failure (samplerOk = false) aborts the try block before any
engine call. -/
noncomputable def transcribe_audio (env : Env) (wav_file : String) : RunTrace :=
  let d0 := OutLine.debug ("Transcribe.py received file: " ++ wav_file)
  if ¬ env.wavExists then
    ⟨[d0, OutLine.error ("WAV file not found at " ++ wav_file)], false⟩
  else if ¬ env.ffmpegHealthy then
    ⟨[d0, OutLine.error ("FFmpeg execution failed: " ++ env.ffmpegMsg)], false⟩
  else if ¬ env.torchOk then
    ⟨[d0, OutLine.error ("Whisper failed: " ++ env.torchMsg)], false⟩
  else
    let d1 := OutLine.debug ("Using device: " ++ env.device)
    if env.localModelExists then
      if env.engineOk then
        ⟨[d0, d1, OutLine.result
            (mkResult env.text "base.en (local)" (overall_confidence env.segments))], true⟩
      else
        ⟨[d0, d1, OutLine.error ("Whisper failed: " ++ env.engineMsg)], true⟩
    else if ¬ env.samplerOk then
      ⟨[d0, d1, OutLine.error ("Whisper failed: " ++ env.samplerMsg)], false⟩
    else if env.engineOk then
      ⟨[d0, d1, OutLine.result
          (mkResult env.text (get_gpu_load_simulated env.load)
            (overall_confidence env.segments))], true⟩
    else
      ⟨[d0, d1, OutLine.error ("Whisper failed: " ++ env.engineMsg)], true⟩

/-- The whole process (module prelude lines 13-15 plus the __main__ block,
lines 96-103): the module-level ffmpeg existence check exits with code 1
before anything else; a missing file-path argument exits with code 1;
otherwise transcribe_audio runs and the process exits 0. argv is the list
of user arguments (sys.argv without the program name). -/
noncomputable def runMain (ffmpegExists : Bool) (ffmpegPath : String)
    (argv : List String) (env : Env) : List OutLine × Nat :=
  if ¬ ffmpegExists then
    ([OutLine.error ("FFmpeg not found at " ++ ffmpegPath)], 1)
  else
    match argv with
    | [] => ([OutLine.error "WAV file path not provided."], 1)
    | wav_file :: _ => ((transcribe_audio env wav_file).lines, 0)

/-! ### Characterization of the accumulation loop -/

lemma confFold_loop (segments : List Segment) :
    ∀ nd : ℝ × ℝ, segments.foldl confStep nd
      = (nd.1 + numSum segments, nd.2 + denSum segments) := by
  induction segments with
  | nil => intro nd; simp [numSum, denSum]
  | cons s t ih =>
    intro nd
    rw [List.foldl_cons, ih]
    cases h : s.avg_logprob with
    | none =>
      simp [confStep, h, numSum, denSum, numTerm, denTerm]
    | some lp =>
      simp only [confStep, h, numSum, denSum, numTerm, denTerm, List.map_cons,
        List.sum_cons, Prod.mk.injEq]
      constructor <;> ring

lemma confFold_eq (segments : List Segment) :
    confFold segments = (numSum segments, denSum segments) := by
  rw [confFold, confFold_loop]
  simp

lemma numSum_filter (segments : List Segment) :
    numSum segments
      = ((segments.filter fun s => s.avg_logprob.isSome).map
          (fun s => max 0 (min 1 (Real.exp (s.avg_logprob.getD 0)))
            * max (1/1000) (s.end_ - s.start))).sum := by
  induction segments with
  | nil => simp [numSum]
  | cons s t ih =>
    cases h : s.avg_logprob with
    | none =>
      simp [numSum, numTerm, h, List.filter_cons] at ih ⊢
      exact ih
    | some lp =>
      simp [numSum, numTerm, h, List.filter_cons] at ih ⊢
      rw [ih]

lemma denSum_filter (segments : List Segment) :
    denSum segments
      = ((segments.filter fun s => s.avg_logprob.isSome).map
          (fun s => max (1/1000) (s.end_ - s.start))).sum := by
  induction segments with
  | nil => simp [denSum]
  | cons s t ih =>
    cases h : s.avg_logprob with
    | none =>
      simp [denSum, denTerm, h, List.filter_cons] at ih ⊢
      exact ih
    | some lp =>
      simp [denSum, denTerm, h, List.filter_cons] at ih ⊢
      rw [ih]

lemma clamp01_nonneg (x : ℝ) : 0 ≤ max 0 (min 1 x) := le_max_left 0 _

lemma clamp01_le_one (x : ℝ) : max 0 (min 1 x) ≤ 1 :=
  max_le (by norm_num) (min_le_left 1 x)

lemma confidence_from_segments_eq_some (segments : List Segment)
    (h : denSum segments ≠ 0) :
    confidence_from_segments segments
      = some (max 0 (min 1 (numSum segments / denSum segments))) := by
  have hne : segments.isEmpty = false := by
    cases segments with
    | nil => exact absurd (by simp [denSum]) h
    | cons s t => rfl
  rw [confidence_from_segments]
  simp only [hne, Bool.false_eq_true, if_false, confFold_eq]
  rw [if_neg h]

lemma confidence_from_segments_eq_none (segments : List Segment)
    (h : denSum segments = 0) :
    confidence_from_segments segments = none := by
  rw [confidence_from_segments]
  cases hE : segments.isEmpty
  · simp only [Bool.false_eq_true, if_false, confFold_eq]
    rw [if_pos h]
  · simp

/-! ### Facts about banker's rounding -/

lemma rne_eq_of_lt_half (x : ℝ) (n : ℤ) (hf : ⌊x⌋ = n) (h : x - n < 1/2) :
    rne x = n := by
  unfold rne
  rw [hf, if_pos h]

lemma rne_eq_of_half_lt (x : ℝ) (n : ℤ) (hf : ⌊x⌋ = n) (h : 1/2 < x - n) :
    rne x = n + 1 := by
  unfold rne
  rw [hf, if_neg (not_lt.2 (le_of_lt h)), if_pos h]

lemma rne_eq_of_half_even (x : ℝ) (n : ℤ) (hf : ⌊x⌋ = n) (h : x - n = 1/2)
    (he : n % 2 = 0) : rne x = n := by
  unfold rne
  rw [hf, h, if_neg (by norm_num), if_neg (by norm_num), if_pos he]

lemma le_rne (x : ℝ) (n : ℤ) (h : (n:ℝ) ≤ x) : n ≤ rne x := by
  have hn : n ≤ ⌊x⌋ := Int.le_floor.2 h
  unfold rne
  split_ifs <;> omega

lemma rne_le (x : ℝ) (n : ℤ) (h : x ≤ (n:ℝ)) : rne x ≤ n := by
  have hfl : ⌊x⌋ ≤ n := by
    have hm := Int.floor_mono h
    rwa [Int.floor_intCast] at hm
  unfold rne
  split_ifs with h1 h2 h3
  · exact hfl
  · have hlt : (⌊x⌋:ℝ) < x := by linarith
    have hltn : ⌊x⌋ < n := by exact_mod_cast lt_of_lt_of_le hlt h
    omega
  · exact hfl
  · have hge : (1:ℝ)/2 ≤ x - ⌊x⌋ := not_lt.1 h1
    have hlt : (⌊x⌋:ℝ) < x := by linarith
    have hltn : ⌊x⌋ < n := by exact_mod_cast lt_of_lt_of_le hlt h
    omega

/-! ### Claims about the Confidence Aggregator -/

/-- Claim C1: whenever at least one segment contributes (nonzero
denominator), the aggregated confidence is the clamp to the unit interval
of the quotient of sum over exactly the logprob-carrying segments of
clamp(exp(avg_logprob),0,1) * max(1e-3, end - start) by the sum of
max(1e-3, end - start) over the same segments; segments without a
logprob contribute to neither sum, and the value lies in the unit
interval. -/
theorem confidence_weighted_mean_c1 (segments : List Segment)
    (h : denSum segments ≠ 0) :
    overall_confidence segments
        = max 0 (min 1 (numSum segments / denSum segments))
      ∧ numSum segments
        = ((segments.filter fun s => s.avg_logprob.isSome).map
            (fun s => max 0 (min 1 (Real.exp (s.avg_logprob.getD 0)))
              * max (1/1000) (s.end_ - s.start))).sum
      ∧ denSum segments
        = ((segments.filter fun s => s.avg_logprob.isSome).map
            (fun s => max (1/1000) (s.end_ - s.start))).sum
      ∧ 0 ≤ overall_confidence segments
      ∧ overall_confidence segments ≤ 1 := by
  have hval : overall_confidence segments
      = max 0 (min 1 (numSum segments / denSum segments)) := by
    rw [overall_confidence, confidence_from_segments_eq_some segments h,
      Option.getD_some]
  refine ⟨hval, numSum_filter segments, denSum_filter segments, ?_, ?_⟩
  · rw [hval]; exact clamp01_nonneg _
  · rw [hval]; exact clamp01_le_one _

/-- A one-segment list with logprob 0, start 0, end 1. -/
noncomputable def seg1 : Segment := ⟨0, 1, some 0⟩

/-- Witness for C1: the single segment (start 0, end 1, avg_logprob 0)
yields a nonzero denominator, and the theorem applies to it. -/
theorem confidence_weighted_mean_c1_witness :
    denSum [seg1] ≠ 0
    ∧ (0 ≤ overall_confidence [seg1] ∧ overall_confidence [seg1] ≤ 1) := by
  have hpos : (0:ℝ) < denSum [seg1] := by
    have h1 : denSum [seg1] = max (1/1000) ((1:ℝ) - 0) := by
      simp [denSum, denTerm, seg1]
    rw [h1]
    exact lt_of_lt_of_le (by norm_num) (le_max_left _ _)
  have hden : denSum [seg1] ≠ 0 := ne_of_gt hpos
  exact ⟨hden, (confidence_weighted_mean_c1 [seg1] hden).2.2.2⟩

/-- Claim C2: when no segment contributes (empty list, or every segment
lacks avg_logprob), the run's overall confidence is exactly 0.5; the
aggregator and its fallback are total, so no error can be raised. -/
theorem neutral_fallback_c2 (segments : List Segment)
    (h : ∀ s ∈ segments, s.avg_logprob = none) :
    overall_confidence segments = 0.5 := by
  have hden : denSum segments = 0 := by
    rw [denSum]
    apply List.sum_eq_zero
    intro x hx
    rw [List.mem_map] at hx
    obtain ⟨s, hs, rfl⟩ := hx
    simp [denTerm, h s hs]
  rw [overall_confidence, confidence_from_segments_eq_none segments hden]
  rfl

/-- A segment carrying no avg_logprob. -/
noncomputable def segNoLp : Segment := ⟨0, 1, none⟩

/-- Witness for C2: a list whose single segment has no logprob satisfies
the hypothesis, and the fallback indeed yields 0.5. -/
theorem neutral_fallback_c2_witness :
    (∀ s ∈ [segNoLp], s.avg_logprob = none)
    ∧ overall_confidence [segNoLp] = 0.5 := by
  have h : ∀ s ∈ [segNoLp], s.avg_logprob = none := by
    intro s hs
    rw [List.mem_singleton] at hs
    rw [hs]
    rfl
  exact ⟨h, neutral_fallback_c2 [segNoLp] h⟩

/-- Claim C10: the aggregator is permutation-invariant: permuting the
segment list leaves the overall confidence unchanged, because both
accumulated sums are commutative sums of per-segment terms and the
empty/zero-denominator fallback conditions are permutation-invariant. -/
theorem permutation_invariant_c10 (s1 s2 : List Segment) (h : s1.Perm s2) :
    overall_confidence s1 = overall_confidence s2 := by
  have hnum : numSum s1 = numSum s2 := by
    rw [numSum, numSum]
    exact (h.map numTerm).sum_eq
  have hden : denSum s1 = denSum s2 := by
    rw [denSum, denSum]
    exact (h.map denTerm).sum_eq
  have hlen := h.length_eq
  have hemp : s1.isEmpty = s2.isEmpty := by
    cases s1 <;> cases s2 <;> simp_all
  rw [overall_confidence, overall_confidence, confidence_from_segments,
    confidence_from_segments, confFold_eq, confFold_eq, hnum, hden, hemp]

/-- First segment of the C10 witness pair. -/
noncomputable def segA : Segment := ⟨0, 2, some (-1)⟩

/-- Second segment of the C10 witness pair. -/
noncomputable def segB : Segment := ⟨2, 5, none⟩

/-- Witness for C10: swapping a two-element segment list leaves the
overall confidence unchanged. -/
theorem permutation_invariant_c10_witness :
    overall_confidence [segA, segB] = overall_confidence [segB, segA] :=
  permutation_invariant_c10 [segA, segB] [segB, segA]
    (List.Perm.swap segB segA [])

/-! ### Claims about the Model Selector and the run's control flow -/

/-- Claim C3: with a local cached artifact present the selector returns
the cached identifier for every load value, and a full run with the
artifact present emits the cached identifier in its result without
consulting the sampler: the run conclusion holds for every environment,
in particular one whose sampler would fail. -/
theorem local_artifact_priority_c3 :
    (∀ load : ℚ, select_model true load = "base.en (local)")
    ∧ ∀ (env : Env) (wav : String),
        env.wavExists = true → env.ffmpegHealthy = true → env.torchOk = true →
        env.localModelExists = true → env.engineOk = true →
        (transcribe_audio env wav).lines.getLast?
          = some (OutLine.result
              (mkResult env.text "base.en (local)"
                (overall_confidence env.segments))) := by
  constructor
  · intro load
    rfl
  · intro env wav h1 h2 h3 h4 h5
    simp [transcribe_audio, h1, h2, h3, h4, h5]

/-- Environment for the C3 witness: local artifact present, sampler
broken, load 99; the cached identifier is still selected. -/
noncomputable def env3 : Env :=
  ⟨true, true, "", true, "torch import failed", "cpu", true, false,
    "cpu_percent failed", 99, true, "", "hello", []⟩

/-- Witness for C3: with the local artifact present, load 99 and a failing
sampler, the run still reports the cached identifier. -/
theorem local_artifact_priority_c3_witness :
    env3.localModelExists = true ∧ env3.load = 99 ∧ env3.samplerOk = false
    ∧ (transcribe_audio env3 "a.wav").lines.getLast?
        = some (OutLine.result
            (mkResult env3.text "base.en (local)"
              (overall_confidence env3.segments))) :=
  ⟨rfl, rfl, rfl, local_artifact_priority_c3.2 env3 "a.wav" rfl rfl rfl rfl rfl⟩

/-- Claim C4: with no local cached model, the selector picks the fast
variant exactly when the sampled load strictly exceeds 60, and the
accurate variant otherwise; at load exactly 60 the accurate variant is
chosen. -/
theorem load_threshold_boundary_c4 :
    ∀ load : ℚ,
      (select_model false load = "tiny.en" ↔ 60 < load)
      ∧ (select_model false load = "small.en" ↔ load ≤ 60)
      ∧ select_model false (60 : ℚ) = "small.en" := by
  intro load
  by_cases h : (60:ℚ) < load
  · refine ⟨?_, ?_, rfl⟩
    · simp [select_model, get_gpu_load_simulated, h]
    · constructor
      · intro he
        rw [select_model, get_gpu_load_simulated] at he
        rw [if_pos h] at he
        exact absurd he (by decide)
      · intro hle
        exact absurd h (not_lt.2 hle)
  · refine ⟨?_, ?_, rfl⟩
    · constructor
      · intro he
        rw [select_model, get_gpu_load_simulated] at he
        rw [if_neg h] at he
        exact absurd he (by decide)
      · intro hlt
        exact absurd hlt h
    · simp [select_model, get_gpu_load_simulated, h, not_lt.1 h]

/-- Claim C8: when the input file is missing, or the decoder health check
fails, the engine is never invoked (no model load, no inference); for a
missing input the run's output is the debug line followed by an error
object whose message names the missing path, and the run terminates
there. -/
theorem no_engine_on_precheck_failure_c8 :
    ∀ (env : Env) (wav : String),
      (env.wavExists = false →
        (transcribe_audio env wav).engineInvoked = false
        ∧ (transcribe_audio env wav).lines
            = [OutLine.debug ("Transcribe.py received file: " ++ wav),
               OutLine.error ("WAV file not found at " ++ wav)])
      ∧ (env.ffmpegHealthy = false →
        (transcribe_audio env wav).engineInvoked = false) := by
  intro env wav
  constructor
  · intro h
    constructor <;> simp [transcribe_audio, h]
  · intro h
    by_cases h1 : env.wavExists
    · simp [transcribe_audio, h1, h]
    · simp [transcribe_audio, h1]

/-- Environment for the C8 witness: the input file does not exist. -/
noncomputable def env8 : Env :=
  ⟨false, true, "", true, "", "cpu", false, true, "", 0, true, "", "", []⟩

/-- Witness for C8: with a missing input file, the engine flag is false
and the error message names the missing path. -/
theorem no_engine_on_precheck_failure_c8_witness :
    env8.wavExists = false
    ∧ ((transcribe_audio env8 "missing.wav").engineInvoked = false
      ∧ (transcribe_audio env8 "missing.wav").lines
          = [OutLine.debug "Transcribe.py received file: missing.wav",
             OutLine.error "WAV file not found at missing.wav"]) :=
  ⟨rfl, (no_engine_on_precheck_failure_c8 env8 "missing.wav").1 rfl⟩

/-! ### Claims about output discipline and exit codes -/

lemma transcribe_countP_final_one (env : Env) (wav : String) :
    (transcribe_audio env wav).lines.countP isFinalLine = 1 := by
  unfold transcribe_audio
  split_ifs <;>
    simp [List.countP_cons, List.countP_nil, isFinalLine]

/-- Environment of a plain successful run with the local artifact. -/
noncomputable def env6 : Env :=
  ⟨true, true, "", true, "", "cpu", true, true, "", 0, true, "", "hi", []⟩

/-- Counterexample to C6 as stated: a successful run writes three lines to
standard output, each of them a json.dumps object (two debug objects and
the result object), so more than one line of structured JSON appears on
that channel. -/
theorem single_json_line_c6_counterexample :
    (transcribe_audio env6 "a.wav").lines.length = 3
    ∧ (transcribe_audio env6 "a.wav").lines.countP
        (fun l => !(isFinalLine l)) = 2 := by
  constructor <;>
    simp [transcribe_audio, env6, List.countP_cons, List.countP_nil, isFinalLine]

/-- Claim C6 amended: every run writes exactly one result-or-error JSON
object; the remaining stdout lines are debug objects, which a consumer
can distinguish from the result. This holds for transcribe_audio and for
the whole process entry point. -/
theorem single_result_line_c6 :
    ∀ (f : Bool) (p : String) (argv : List String) (env : Env) (wav : String),
      (transcribe_audio env wav).lines.countP isFinalLine = 1
      ∧ (runMain f p argv env).1.countP isFinalLine = 1 := by
  intro f p argv env wav
  refine ⟨transcribe_countP_final_one env wav, ?_⟩
  unfold runMain
  cases f with
  | false => simp [List.countP_cons, List.countP_nil, isFinalLine]
  | true =>
    cases argv with
    | nil => simp [List.countP_cons, List.countP_nil, isFinalLine]
    | cons w rest =>
      simpa using transcribe_countP_final_one env w

/-- Counterexample to C7 as stated: when the decoder binary is absent at
module load, the process exits with code 1 even though a file path
argument was supplied, so a non-zero exit does not imply a missing
file-path argument. -/
theorem exit_code_c7_counterexample :
    (runMain false "C:/ffmpeg/ffmpeg.exe" ["a.wav"] env6).2 = 1
    ∧ (["a.wav"] : List String) ≠ [] := by
  constructor
  · rfl
  · simp

/-- Claim C7 amended: the process exits with code zero exactly when the
decoder binary exists at startup and a file-path argument was supplied;
in every other case it exits 1. In particular a missing input file, a
failed decoder health check or an engine failure still exit zero, with
the failure reported only in the error JSON object. -/
theorem exit_codes_c7 :
    ∀ (f : Bool) (p : String) (argv : List String) (env : Env),
      ((runMain f p argv env).2 = 0 ↔ (f = true ∧ argv ≠ []))
      ∧ ((runMain f p argv env).2 = 0 ∨ (runMain f p argv env).2 = 1) := by
  intro f p argv env
  cases f <;> cases argv <;> simp [runMain]

/-- Counterexample to C9 as stated: the out-of-range load sample -5 makes
the selector return the heavier variant, not the lightweight one, so the
selector does not fail closed on untrustworthy telemetry. -/
theorem fail_closed_c9_counterexample :
    get_gpu_load_simulated (-5) = "small.en"
    ∧ get_gpu_load_simulated (-5) ≠ "tiny.en" := by
  constructor
  · rfl
  · decide

/-- Claim C9 amended: the sampled value is fed to the bare greater-than-60
comparison with no range validation: out-of-range values above 60 (such
as 150) select the fast variant while out-of-range values below 0 select
the heavier variant; and a sampler failure is not handled by the
selector at all — it aborts the try block, so the run emits a generic
engine-failure error object and never invokes the engine. -/
theorem threshold_unguarded_c9 :
    (∀ load : ℚ, 100 < load → get_gpu_load_simulated load = "tiny.en")
    ∧ (∀ load : ℚ, load < 0 → get_gpu_load_simulated load = "small.en")
    ∧ ∀ (env : Env) (wav : String),
        env.wavExists = true → env.ffmpegHealthy = true → env.torchOk = true →
        env.localModelExists = false → env.samplerOk = false →
        (transcribe_audio env wav).engineInvoked = false
        ∧ (transcribe_audio env wav).lines.getLast?
            = some (OutLine.error ("Whisper failed: " ++ env.samplerMsg)) := by
  refine ⟨?_, ?_, ?_⟩
  · intro load h
    rw [get_gpu_load_simulated, if_pos (lt_trans (by norm_num) h)]
  · intro load h
    rw [get_gpu_load_simulated, if_neg (by linarith)]
  · intro env wav h1 h2 h3 h4 h5
    constructor <;> simp [transcribe_audio, h1, h2, h3, h4, h5]

/-- Environment for the C9 witness: no local artifact and a failing
sampler. -/
noncomputable def env9 : Env :=
  ⟨true, true, "", true, "", "cpu", false, false, "cpu_percent failed", 0,
    true, "", "", []⟩

/-- Witness for C9 amended: the three parts applied at load 150, load -5
and the failing-sampler environment. -/
theorem threshold_unguarded_c9_witness :
    ((100:ℚ) < 150 ∧ get_gpu_load_simulated 150 = "tiny.en")
    ∧ ((-5:ℚ) < 0 ∧ get_gpu_load_simulated (-5) = "small.en")
    ∧ (env9.samplerOk = false
      ∧ (transcribe_audio env9 "a.wav").engineInvoked = false
      ∧ (transcribe_audio env9 "a.wav").lines.getLast?
          = some (OutLine.error ("Whisper failed: " ++ env9.samplerMsg))) :=
  ⟨⟨by norm_num, threshold_unguarded_c9.1 150 (by norm_num)⟩,
   ⟨by norm_num, threshold_unguarded_c9.2.1 (-5) (by norm_num)⟩,
   rfl,
   (threshold_unguarded_c9.2.2 env9 "a.wav" rfl rfl rfl rfl rfl).1,
   (threshold_unguarded_c9.2.2 env9 "a.wav" rfl rfl rfl rfl rfl).2⟩

/-! ### Claim C5: confidence_percent versus the rounded scalar -/

/-- A segment whose confidence lands exactly on 0.12503: its logprob is
log(0.12503), so exp maps it back. -/
noncomputable def seg5 : Segment := ⟨0, 1, some (Real.log (12503/100000))⟩

/-- Successful run environment whose only segment is seg5. -/
noncomputable def env5 : Env :=
  ⟨true, true, "", true, "", "cpu", false, true, "", 30, true, "", "t", [seg5]⟩

lemma overall_seg5 : overall_confidence [seg5] = 12503/100000 := by
  have hexp : Real.exp (Real.log (12503/100000 : ℝ)) = 12503/100000 :=
    Real.exp_log (by norm_num)
  have hnum : numSum [seg5] = 12503/100000 := by
    simp only [numSum, numTerm, seg5, List.map_cons, List.map_nil,
      List.sum_cons, List.sum_nil, hexp]
    rw [min_eq_right (by norm_num), max_eq_right (by norm_num),
      max_eq_right (by norm_num)]
    norm_num
  have hden : denSum [seg5] = 1 := by
    simp only [denSum, denTerm, seg5, List.map_cons, List.map_nil,
      List.sum_cons, List.sum_nil]
    rw [max_eq_right (by norm_num)]
    norm_num
  rw [overall_confidence,
    confidence_from_segments_eq_some [seg5] (by rw [hden]; norm_num),
    Option.getD_some, hnum, hden, div_one,
    min_eq_right (by norm_num), max_eq_right (by norm_num)]

lemma percent_seg5 : rne ((12503/100000 : ℝ) * 100) = 13 := by
  have hx : (12503/100000 : ℝ) * 100 = 12503/1000 := by norm_num
  have hf : ⌊(12503/1000 : ℝ)⌋ = 12 := by
    rw [Int.floor_eq_iff]
    constructor <;> norm_num
  rw [hx, rne_eq_of_half_lt (12503/1000) 12 hf (by norm_num)]
  norm_num

lemma round4_seg5 : round4 (12503/100000 : ℝ) = 1/8 := by
  have hx : (12503/100000 : ℝ) * 10000 = 12503/10 := by norm_num
  have hf : ⌊(12503/10 : ℝ)⌋ = 1250 := by
    rw [Int.floor_eq_iff]
    constructor <;> norm_num
  rw [round4, hx, rne_eq_of_lt_half (12503/10) 1250 hf (by norm_num)]
  norm_num

lemma rne_eighth : rne ((1/8 : ℝ) * 100) = 12 := by
  have hx : (1/8 : ℝ) * 100 = 25/2 := by norm_num
  have hf : ⌊(25/2 : ℝ)⌋ = 12 := by
    rw [Int.floor_eq_iff]
    constructor <;> norm_num
  rw [hx, rne_eq_of_half_even (25/2) 12 hf (by norm_num) (by decide)]

/-- Counterexample to C5 as stated: a successful run whose aggregate
confidence is exactly 0.12503 emits confidence 0.125 (rounded to 4
decimals) and confidence_percent 13 (rounded from the unrounded value
12.503), but recomputing round(confidence * 100) from the emitted scalar
gives round(12.5) = 12, not 13. -/
theorem percent_roundtrip_c5_counterexample :
    (transcribe_audio env5 "a.wav").lines.getLast?
      = some (OutLine.result (mkResult env5.text
          (get_gpu_load_simulated env5.load) (overall_confidence env5.segments)))
    ∧ get_gpu_load_simulated env5.load = "small.en"
    ∧ (mkResult "t" "small.en" (overall_confidence [seg5])).confidence_percent = 13
    ∧ rne ((mkResult "t" "small.en"
        (overall_confidence [seg5])).confidence * 100) = 12 := by
  refine ⟨?_, rfl, ?_, ?_⟩
  · simp [transcribe_audio, env5]
  · show rne (overall_confidence [seg5] * 100) = 13
    rw [overall_seg5]
    exact percent_seg5
  · show rne (round4 (overall_confidence [seg5]) * 100) = 12
    rw [overall_seg5, round4_seg5]
    exact rne_eighth

/-- Claim C5 amended: confidence_percent is computed from the UNROUNDED
overall confidence, confidence_percent = round(overall_conf * 100); for
an overall confidence in the unit interval the percentage lies in
[0, 100]. Recomputing from the emitted 4-decimal scalar does not always
reproduce it (see the counterexample). -/
theorem percent_from_unrounded_c5 (t m : String) (c : ℝ)
    (h0 : 0 ≤ c) (h1 : c ≤ 1) :
    (mkResult t m c).confidence_percent = rne (c * 100)
    ∧ 0 ≤ (mkResult t m c).confidence_percent
    ∧ (mkResult t m c).confidence_percent ≤ 100 := by
  refine ⟨rfl, ?_, ?_⟩
  · show (0:ℤ) ≤ rne (c * 100)
    apply le_rne
    push_cast
    exact mul_nonneg h0 (by norm_num)
  · show rne (c * 100) ≤ (100:ℤ)
    apply rne_le
    push_cast
    calc c * 100 ≤ 1 * 100 := mul_le_mul_of_nonneg_right h1 (by norm_num)
    _ = 100 := by norm_num

/-- Witness for C5 amended: at overall confidence one half the percent
field is round(50) and lies in range. -/
theorem percent_from_unrounded_c5_witness :
    (0:ℝ) ≤ 1/2 ∧ (1/2:ℝ) ≤ 1
    ∧ ((mkResult "a" "b" (1/2)).confidence_percent = rne ((1/2) * 100)
      ∧ 0 ≤ (mkResult "a" "b" (1/2)).confidence_percent
      ∧ (mkResult "a" "b" (1/2)).confidence_percent ≤ 100) :=
  ⟨by norm_num, by norm_num,
    percent_from_unrounded_c5 "a" "b" (1/2) (by norm_num) (by norm_num)⟩

end VCTools
